import Mathlib

/-!
Shallow embedding of the connection/session core of the lancedb-viewer
repository: the IPC v1 result envelope (`src/ipc/v1.ts`,
`src/lib/tauriClient.ts`), backend-kind classification
(`src/lib/connectionKind.ts`), connect-URI normalization
(`src/lib/lancedbUri.ts`), profile conversion (`src/models/profile.ts`),
auth-descriptor resolution (`src/lib/authDescriptor.ts`), the credential
vault index (`src/lib/credentialVault.ts`), profile deletion cleanup
(`useProfiles`), and the per-connection state machine of
`src/composables/useConnection.ts` with its suspension points made
explicit.
-/

namespace LancedbViewer

/-! ## Envelope protocol (src/ipc/v1.ts, src/lib/tauriClient.ts) -/

/-- `ErrorCode` from `src/ipc/v1.ts`. -/
inductive ErrorCode where
  | invalid_argument
  | not_found
  | internal
  | not_implemented
deriving DecidableEq, Repr

/-- `ErrorEnvelope` from `src/ipc/v1.ts` (`details` is opaque; we keep only
its presence as an optional unit). -/
structure ErrorEnvelope where
  code : ErrorCode
  message : String
  details : Option Unit := none
deriving DecidableEq, Repr

/-- `ResultEnvelope<T>` from `src/ipc/v1.ts`: `{apiVersion, ok, data?, error?}`.
Optional TS fields become `Option`. -/
structure ResultEnvelope (T : Type) where
  apiVersion : String
  ok : Bool
  data : Option T
  error : Option ErrorEnvelope
deriving DecidableEq, Repr

/-- `unwrapEnvelope` from `src/lib/tauriClient.ts`:
`if (!envelope.ok || envelope.data === undefined) throw new Error(envelope.error?.message ?? "unknown error"); return envelope.data`.
Throwing is modelled as `Except.error` carrying the thrown message. -/
def unwrapEnvelope {T : Type} (envelope : ResultEnvelope T) : Except String T :=
  match envelope.ok, envelope.data with
  | true, some d => .ok d
  | _, _ =>
    .error (match envelope.error with
      | some err => err.message
      | none => "unknown error")

/-! ## Backend kind classification (src/lib/connectionKind.ts) -/

/-- `ConnectionKind` from `src/lib/connectionKind.ts`. -/
inductive ConnectionKind where
  | local
  | s3
  | gcs
  | azure
  | remote
  | unknown
deriving DecidableEq, Repr

/-! JavaScript string primitives, modelled over the character list of a
`String` so that every definition evaluates by kernel reduction. -/

/-- `pat` is a leading run of `l` (JS `startsWith` on character lists). -/
def isLeading : List Char → List Char → Bool
  | [], _ => true
  | _ :: _, [] => false
  | p :: ps, c :: cs => p == c && isLeading ps cs

/-- JS `String.prototype.trim`: drop whitespace from both ends. -/
def jsTrim (s : String) : String :=
  String.mk (((s.data.dropWhile Char.isWhitespace).reverse.dropWhile
    Char.isWhitespace).reverse)

/-- JS `String.prototype.toLowerCase` (ASCII, which is all the source
compares against). -/
def jsToLower (s : String) : String :=
  String.mk (s.data.map Char.toLower)

/-- JS `String.prototype.startsWith`. -/
def jsStartsWith (s pre : String) : Bool :=
  isLeading pre.data s.data

/-- JS `String.prototype.endsWith`. -/
def jsEndsWith (s suffix : String) : Bool :=
  isLeading suffix.data.reverse s.data.reverse

/-- Occurrence of `pat` anywhere in `l`. -/
def hasSubList : List Char → List Char → Bool
  | l, pat =>
    if isLeading pat l then true
    else match l with
      | [] => false
      | _ :: rest => hasSubList rest pat

/-- JS `String.prototype.includes`. -/
def jsIncludes (s pat : String) : Bool :=
  hasSubList s.data pat.data

/-- `getConnectionKind` from `src/lib/connectionKind.ts`: classify a URI by
its (trimmed, lowercased) scheme prefix. -/
def getConnectionKind (uri : String) : ConnectionKind :=
  let normalized := jsToLower (jsTrim uri)
  if jsStartsWith normalized "file://" then .local
  else if jsStartsWith normalized "s3://" then .s3
  else if jsStartsWith normalized "s3+ddb://" then .s3
  else if jsStartsWith normalized "gs://" then .gcs
  else if jsStartsWith normalized "az://" || jsStartsWith normalized "azure://" then .azure
  else if jsStartsWith normalized "db://" then .remote
  else if jsIncludes normalized "://" then .unknown
  else .local

/-- The classification exactly as claim C9 enumerates it (spec side, for
comparison with the source's `getConnectionKind`): `file://` and scheme-less
paths are local, `s3://` s3, `gs://` gcs, `az://` azure, `db://` remote, and
any other URI containing `"://"` unknown. -/
def claimC9Kind (uri : String) : ConnectionKind :=
  let normalized := jsToLower (jsTrim uri)
  if jsStartsWith normalized "file://" then .local
  else if jsStartsWith normalized "s3://" then .s3
  else if jsStartsWith normalized "gs://" then .gcs
  else if jsStartsWith normalized "az://" then .azure
  else if jsStartsWith normalized "db://" then .remote
  else if jsIncludes normalized "://" then .unknown
  else .local

/-- Prefix table for the amended C9 classification: the source's cascade in
order, including the `s3+ddb://` and `azure://` prefixes the claim omits. -/
def kindEntries : List (String × ConnectionKind) :=
  [("file://", .local), ("s3://", .s3), ("s3+ddb://", .s3), ("gs://", .gcs),
   ("az://", .azure), ("azure://", .azure), ("db://", .remote)]

/-- First entry of the table whose scheme is a leading piece of `n`. -/
def classifyByTable : List (String × ConnectionKind) → String → Option ConnectionKind
  | [], _ => Option.none
  | (pre, k) :: rest, n =>
    if jsStartsWith n pre then some k else classifyByTable rest n

/-- Amended C9 classification: look the normalized URI up in `kindEntries`;
otherwise unknown when it contains `"://"`, local when it does not. -/
def claimC9KindAmended (uri : String) : ConnectionKind :=
  let normalized := jsToLower (jsTrim uri)
  (classifyByTable kindEntries normalized).getD
    (if jsIncludes normalized "://" then .unknown else .local)

example : getConnectionKind "/tmp/db" = .local := by decide
example : getConnectionKind "azure://demo" = .azure := by decide
example : claimC9Kind "azure://demo" = .unknown := by decide
example : unwrapEnvelope ⟨"v1", true, some 7, none⟩ = .ok 7 := rfl

/-! ## Connect-URI normalization (src/lib/lancedbUri.ts) -/

/-- Path separator characters (`/` and `\`). -/
def isPathSep (c : Char) : Bool :=
  c == '/' || c == '\\'

/-- `stripWrappingQuotes`: trim, then remove one pair of matching wrapping
double or single quotes. -/
def stripWrappingQuotes (value : String) : String :=
  let trimmed := jsTrim value
  let l := trimmed.data
  if 2 ≤ l.length ∧
      ((l.head? = some '"' ∧ l.getLast? = some '"') ∨
       (l.head? = some '\'' ∧ l.getLast? = some '\'')) then
    String.mk (l.drop 1 |>.dropLast)
  else trimmed

/-- `stripFileScheme`: drop a leading `file://`, and for a Windows-style
`file:///C:/...` form also the extra leading slash (`/^\/[a-zA-Z]:\//`). -/
def stripFileScheme (uri : String) : String :=
  if jsStartsWith (jsToLower uri) "file://" then
    let without := String.mk (uri.data.drop 7)
    match without.data with
    | '/' :: c :: ':' :: '/' :: _ =>
      if c.isAlpha then String.mk (without.data.drop 1) else without
    | _ => without
  else uri

/-- `trimTrailingSeparators`: JS `replace(/[\\/]+$/u, "")`. -/
def trimTrailingSeparators (pathLike : String) : String :=
  String.mk ((pathLike.data.reverse.dropWhile isPathSep).reverse)

/-- Index of the last path separator of `l`, or `none`; this is JS
`Math.max(lastIndexOf "/", lastIndexOf "\\")` with `-1` as `none`. -/
def lastSepIndex (l : List Char) : Option Nat :=
  (l.reverse.findIdx? isPathSep).map (fun i => l.length - 1 - i)

/-- `parentDirectory`: everything before the last path separator; the
(separator-trimmed) path itself when the separator is absent or at index
zero (`if (lastSlash <= 0) return normalized`). -/
def parentDirectory (pathLike : String) : String :=
  let normalized := trimTrailingSeparators pathLike
  match lastSepIndex normalized.data with
  | none => normalized
  | some i => if i = 0 then normalized else String.mk (normalized.data.take i)

/-- `endsWithLanceTableDir`: the separator-trimmed path ends in `.lance`
case-insensitively. -/
def endsWithLanceTableDir (pathLike : String) : Bool :=
  jsEndsWith (jsToLower (trimTrailingSeparators pathLike)) ".lance"

/-- `normalizeConnectUri` from `src/lib/lancedbUri.ts`: strip wrapping
quotes and a `file://` scheme, trim, and rewrite a scheme-less `*.lance`
table directory to its parent database directory. -/
def normalizeConnectUri (raw : String) : String :=
  let u1 := stripWrappingQuotes raw
  let u2 := stripFileScheme u1
  let uri := jsTrim u2
  if !(jsIncludes (jsToLower uri) "://") && endsWithLanceTableDir uri then
    parentDirectory uri
  else uri

example : normalizeConnectUri "/data/items.lance" = "/data" := by decide
example : normalizeConnectUri "items.lance" = "items.lance" := by decide
example : normalizeConnectUri " \"file:///tmp/db/\" " = "/tmp/db/" := by decide

/-! ## Profiles and connect requests (src/models/profile.ts,
src/composables/useConnection.ts lines 108-109) -/

/-- `AuthDescriptor` from `src/ipc/v1.ts`: `none | inline | secret_ref`.
`params` is the string-keyed credential parameter map as an association
list. -/
inductive AuthDescriptor where
  | noAuth
  | inline (provider : String) (params : List (String × String))
  | secretRef (provider : String) (reference : String)
deriving DecidableEq, Repr

/-- `ConnectOptions` from `src/ipc/v1.ts` (the consistency interval is kept
as a `Nat` number of seconds; its value is never inspected by the core). -/
structure ConnectOptions where
  readConsistencyIntervalSeconds : Option Nat
deriving DecidableEq, Repr

/-- `StoredProfile` from `src/models/profile.ts`. -/
structure StoredProfile where
  id : String
  name : String
  uri : String
  storageOptions : List (String × String)
  options : Option ConnectOptions
  auth : Option AuthDescriptor
deriving DecidableEq, Repr

/-- `ConnectProfile` from `src/ipc/v1.ts` (the driver-facing connect
request). -/
structure ConnectProfile where
  name : String
  uri : String
  storageOptions : List (String × String)
  options : Option ConnectOptions
  auth : Option AuthDescriptor
deriving DecidableEq, Repr

/-- `toConnectProfile` from `src/models/profile.ts`: renormalizes the URI
and copies every other stored field unchanged. -/
def toConnectProfile (profile : StoredProfile) : ConnectProfile :=
  { name := profile.name
    uri := normalizeConnectUri profile.uri
    storageOptions := profile.storageOptions
    options := profile.options
    auth := profile.auth }

/-- The connect request exactly as `connectProfile` builds it
(`src/composables/useConnection.ts` lines 108-109):
`toConnectProfile(profile)` followed by `connectProfile.auth ??= {type: "none"}`. -/
def buildConnectRequest (profile : StoredProfile) : ConnectProfile :=
  let cp := toConnectProfile profile
  { cp with auth := some (cp.auth.getD .noAuth) }

/-! ## Credential vault and auth resolution (src/lib/credentialVault.ts,
src/lib/authDescriptor.ts, src/lib/credentialReferences.ts) -/

/-- `CredentialSummary` from `src/lib/credentialVault.ts` (index entry). -/
structure CredentialSummary where
  reference : String
  provider : String
  label : Option String
  updatedAt : String
deriving DecidableEq, Repr

/-- `CredentialRecord` from `src/lib/credentialVault.ts`: a summary plus
the secret parameter map. -/
structure CredentialRecord where
  reference : String
  provider : String
  label : Option String
  updatedAt : String
  params : List (String × String)
deriving DecidableEq, Repr

/-- `resolveAuthDescriptor` from `src/lib/authDescriptor.ts`. The vault's
`getCredential` collaborator is passed in as a function from reference to
optional record; a missing reference throws (here `Except.error`). -/
def resolveAuthDescriptor (getCredential : String → Option CredentialRecord)
    (auth : Option AuthDescriptor) : Except String AuthDescriptor :=
  match auth with
  | none => .ok .noAuth
  | some .noAuth => .ok .noAuth
  | some (.inline provider params) => .ok (.inline provider params)
  | some (.secretRef provider reference) =>
    match getCredential reference with
    | none => .error ("未找到凭证引用：" ++ reference)
    | some credential => .ok (.inline provider credential.params)

/-- `collectCredentialReferences` from `src/lib/credentialReferences.ts`:
the trimmed, non-empty `secret_ref` references of the given profiles (a JS
`Set`; list membership stands for set membership). -/
def collectCredentialReferences (profiles : List StoredProfile) : List String :=
  profiles.filterMap (fun profile =>
    match profile.auth with
    | some (.secretRef _ reference) =>
      if jsTrim reference = "" then none else some (jsTrim reference)
    | _ => none)

/-- `cleanupUnusedCredentials` from `src/lib/credentialVault.ts`: delete
every indexed credential whose reference is not in `usedReferences`;
returns the surviving index and the removed references. -/
def cleanupUnusedCredentials (usedReferences : List String)
    (index : List CredentialSummary) : List CredentialSummary × List String :=
  (index.filter (fun c => usedReferences.contains c.reference),
   (index.filter (fun c => !usedReferences.contains c.reference)).map
     (fun c => c.reference))

/-- `deleteProfile` from `useProfiles` (the generation carrying vault
cleanup, stored after the document separator in
`src/composables/useStatusMessages.ts`): remove every profile with the
given id, then garbage-collect vault credentials no remaining profile
references. Returns (remaining profiles, surviving vault index, removed
references); an unknown id is an error that touches nothing. -/
def deleteProfileStep (profiles : List StoredProfile) (profileId : String)
    (index : List CredentialSummary) :
    List StoredProfile × List CredentialSummary × List String :=
  match profiles.find? (fun q => q.id == profileId) with
  | none => (profiles, index, [])
  | some _ =>
    let nextProfiles := profiles.filter (fun q => !(q.id == profileId))
    let used := collectCredentialReferences nextProfiles
    let (kept, removed) := cleanupUnusedCredentials used index
    (nextProfiles, kept, removed)

/-- The saved URI of `addProfile`/`updateProfile` (`useProfiles`): the form
URI is trimmed, rejected when blank, normalized, rejected when the
normalization is blank, and otherwise persisted as the profile URI. -/
def savedProfileUri (formUri : String) : Option String :=
  let uriRaw := jsTrim formUri
  if uriRaw = "" then none
  else
    let normalizedUri := normalizeConnectUri uriRaw
    if jsTrim normalizedUri = "" then none
    else some normalizedUri

/-! ## Per-connection state machine (src/composables/useConnection.ts)

Each registry operation is an `async` function whose body is a sequence of
synchronous segments separated by `await`s of the database client.  The JS
event loop runs one segment atomically and may interleave other operations
only at the `await` boundaries.  We therefore embed each synchronous
segment as a pure function, record a suspended continuation as a `Pending`
task, and let a step relation interleave segment executions with arbitrary
driver responses. -/

/-- `TableInfo` from `src/ipc/v1.ts`. -/
structure TableInfo where
  name : String
deriving DecidableEq, Repr

/-- `TableHandle` from `src/ipc/v1.ts`. -/
structure TableHandle where
  tableId : String
  name : String
deriving DecidableEq, Repr

/-- `SchemaField` from `src/ipc/v1.ts`. -/
structure SchemaField where
  name : String
  dataType : String
  nullable : Bool
  metadata : Option (List (String × String))
deriving DecidableEq, Repr

/-- `SchemaDefinition` from `src/ipc/v1.ts`. -/
structure SchemaDefinition where
  fields : List SchemaField
deriving DecidableEq, Repr

/-- `ConnectResponseV1` from `src/ipc/v1.ts`. -/
structure ConnectResponseV1 where
  connectionId : String
  backendKind : ConnectionKind
  name : String
  uri : String
deriving DecidableEq, Repr

/-- `ConnectionState` from `src/composables/useConnection.ts` lines 15-24:
the per-profile registry record.  The implementation has exactly the three
busy flags `isConnecting`, `isRefreshing`, `isOpening`; it has no
disconnecting flag (the snapshot's `useConnection` has no disconnect
lane). -/
structure ConnState where
  connectionId : Option String
  tables : List TableInfo
  activeTableName : Option String
  activeTableId : Option String
  schema : Option SchemaDefinition
  isConnecting : Bool
  isRefreshing : Bool
  isOpening : Bool
deriving DecidableEq, Repr

/-- `createConnectionState`: the fresh record made by `getState` the first
time a profile is referenced. -/
def createConnectionState : ConnState :=
  { connectionId := none
    tables := []
    activeTableName := none
    activeTableId := none
    schema := none
    isConnecting := false
    isRefreshing := false
    isOpening := false }

/-- `resetConnection` from `src/composables/useConnection.ts` lines 85-92:
clears the handle and derived fields; busy flags are untouched. -/
def resetConnection (s : ConnState) : ConnState :=
  { s with
    connectionId := none
    tables := []
    activeTableName := none
    activeTableId := none
    schema := none }

/-- A suspended continuation of one of the three async operations:
which `await` of which operation the task is parked at. -/
inductive Pending where
  /-- `connectProfile` suspended at `await connectV1(...)`. -/
  | connectAwait
  /-- `connectProfile` suspended inside its chained `refreshTables` at
  `await listTablesV1(id)`; `isConnecting` is still true here because
  `connectProfile`'s `finally` has not yet run. -/
  | connectRefreshAwait
  /-- A direct `refreshTables` call suspended at `await listTablesV1(id)`. -/
  | refreshAwait
  /-- `openTable` suspended at `await openTableV1(id, name)`. -/
  | openAwait1
  /-- `openTable` suspended at `await getSchemaV1(handle.tableId)`. -/
  | openAwait2
deriving DecidableEq, Repr

/-- Result of an awaited database-client call: a payload, or a rejection
(the rejection message only feeds `options.onError` and never the state). -/
inductive Outcome (α : Type) where
  | ok (value : α)
  | err
deriving DecidableEq, Repr

/-- `connectProfile` up to its first `await` (lines 94-110): drop the call
when `isConnecting` is already set, otherwise set `isConnecting`, run
`resetConnection`, and suspend at `connectV1`.  (The profile lookup is
assumed to succeed; a missing profile returns before touching any state.) -/
def startConnect (s : ConnState) : ConnState × Option Pending :=
  bif s.isConnecting then (s, none)
  else ({ resetConnection s with isConnecting := true }, some .connectAwait)

/-- `refreshTables` up to its first `await` (lines 122-134): no-op without
a (truthy) connection id or while already refreshing, otherwise set
`isRefreshing` and suspend at `listTablesV1`.  JS truthiness makes an empty
string id count as absent. -/
def startRefresh (s : ConnState) : ConnState × Option Pending :=
  match s.connectionId with
  | none => (s, none)
  | some id =>
    bif id == "" then (s, none)
    else bif s.isRefreshing then (s, none)
    else ({ s with isRefreshing := true }, some .refreshAwait)

/-- `openTable` up to its first `await` (lines 144-159): no-op without a
(truthy) id or while already opening; otherwise set `isOpening`, set
`activeTableName` optimistically, clear `activeTableId` and `schema`, and
suspend at `openTableV1`. -/
def startOpen (s : ConnState) (name : String) : ConnState × Option Pending :=
  match s.connectionId with
  | none => (s, none)
  | some id =>
    bif id == "" then (s, none)
    else bif s.isOpening then (s, none)
    else ({ s with
             isOpening := true
             activeTableName := some name
             activeTableId := none
             schema := none }, some .openAwait1)

/-- Continuation after `await connectV1` (lines 110-119).  On rejection the
`catch`/`finally` clear `isConnecting`.  On success `connectionId` is set
and `refreshTables(profileId)` runs synchronously up to its own first
`await`: if its guards pass the chained refresh suspends at `listTablesV1`
with `isConnecting` still true; if they fail, `connectProfile` completes
and `finally` clears `isConnecting`. -/
def resumeConnect (s : ConnState) (r : Outcome ConnectResponseV1) :
    ConnState × Option Pending :=
  match r with
  | .err => ({ s with isConnecting := false }, none)
  | .ok response =>
    let s1 := { s with connectionId := some response.connectionId }
    match startRefresh s1 with
    | (s2, none) => ({ s2 with isConnecting := false }, none)
    | (s2, some _) => (s2, some .connectRefreshAwait)

/-- Continuation after the chained refresh's `await listTablesV1` (lines
134-141 inside the line-113 `await refreshTables`): record the table list
on success, then the refresh `finally` clears `isRefreshing` and the
enclosing `connectProfile` `finally` clears `isConnecting` — one atomic
segment. -/
def resumeConnectRefresh (s : ConnState) (r : Outcome (List TableInfo)) :
    ConnState × Option Pending :=
  match r with
  | .ok t => ({ s with tables := t, isRefreshing := false, isConnecting := false }, none)
  | .err => ({ s with isRefreshing := false, isConnecting := false }, none)

/-- Continuation after a direct `refreshTables`'s `await listTablesV1`
(lines 134-141). -/
def resumeRefresh (s : ConnState) (r : Outcome (List TableInfo)) :
    ConnState × Option Pending :=
  match r with
  | .ok t => ({ s with tables := t, isRefreshing := false }, none)
  | .err => ({ s with isRefreshing := false }, none)

/-- Continuation after `await openTableV1` (lines 159-161): on success set
`activeTableId` and suspend at `getSchemaV1`; on rejection the
`catch`/`finally` clear `isOpening` (name stays, id/schema stay empty). -/
def resumeOpen1 (s : ConnState) (r : Outcome TableHandle) :
    ConnState × Option Pending :=
  match r with
  | .err => ({ s with isOpening := false }, none)
  | .ok handle => ({ s with activeTableId := some handle.tableId }, some .openAwait2)

/-- Continuation after `await getSchemaV1` (lines 161-167): set `schema`
on success; either way `finally` clears `isOpening`. -/
def resumeOpen2 (s : ConnState) (r : Outcome SchemaDefinition) :
    ConnState × Option Pending :=
  match r with
  | .err => ({ s with isOpening := false }, none)
  | .ok sch => ({ s with schema := some sch, isOpening := false }, none)

/-- A connection's instantaneous configuration: the observable
`ConnectionState` plus the operations currently suspended at a
database-client call. -/
structure Config where
  state : ConnState
  pending : List Pending
deriving DecidableEq, Repr

/-- The tasks spawned by a start/resume segment (none or one). -/
def optTask : Option Pending → List Pending
  | none => []
  | some t => [t]

/-- One observable step of the event loop for a single connection: invoke
one of the registry operations (running its first synchronous segment), or
deliver an arbitrary driver response to any suspended task (running the
matching continuation segment). -/
inductive Step : Config → Config → Prop where
  | connect (s : ConnState) (ts : List Pending) :
      Step ⟨s, ts⟩ ⟨(startConnect s).1, ts ++ optTask (startConnect s).2⟩
  | refresh (s : ConnState) (ts : List Pending) :
      Step ⟨s, ts⟩ ⟨(startRefresh s).1, ts ++ optTask (startRefresh s).2⟩
  | openT (s : ConnState) (ts : List Pending) (name : String) :
      Step ⟨s, ts⟩ ⟨(startOpen s name).1, ts ++ optTask (startOpen s name).2⟩
  | reset (s : ConnState) (ts : List Pending) :
      Step ⟨s, ts⟩ ⟨resetConnection s, ts⟩
  | resumeC (s : ConnState) (r : Outcome ConnectResponseV1) (l rr : List Pending) :
      Step ⟨s, l ++ .connectAwait :: rr⟩
        ⟨(resumeConnect s r).1, (l ++ rr) ++ optTask (resumeConnect s r).2⟩
  | resumeCR (s : ConnState) (r : Outcome (List TableInfo)) (l rr : List Pending) :
      Step ⟨s, l ++ .connectRefreshAwait :: rr⟩
        ⟨(resumeConnectRefresh s r).1, (l ++ rr) ++ optTask (resumeConnectRefresh s r).2⟩
  | resumeR (s : ConnState) (r : Outcome (List TableInfo)) (l rr : List Pending) :
      Step ⟨s, l ++ .refreshAwait :: rr⟩
        ⟨(resumeRefresh s r).1, (l ++ rr) ++ optTask (resumeRefresh s r).2⟩
  | resumeO1 (s : ConnState) (r : Outcome TableHandle) (l rr : List Pending) :
      Step ⟨s, l ++ .openAwait1 :: rr⟩
        ⟨(resumeOpen1 s r).1, (l ++ rr) ++ optTask (resumeOpen1 s r).2⟩
  | resumeO2 (s : ConnState) (r : Outcome SchemaDefinition) (l rr : List Pending) :
      Step ⟨s, l ++ .openAwait2 :: rr⟩
        ⟨(resumeOpen2 s r).1, (l ++ rr) ++ optTask (resumeOpen2 s r).2⟩

/-- Configurations reachable from a fresh connection record with no
operation in flight. -/
def Reach (c : Config) : Prop :=
  Relation.ReflTransGen Step ⟨createConnectionState, []⟩ c

/-! ## The lane invariant: each busy flag tracks exactly its own lane's
suspended operation, and no lane ever has two operations in flight. -/

/-- Tasks of the connect lane (the in-flight `connectProfile` call,
including its chained refresh stage). -/
def laneConnect : Pending → Bool
  | .connectAwait => true
  | .connectRefreshAwait => true
  | _ => false

/-- Tasks of the refresh lane (a `refreshTables` body in flight, whether
called directly or chained from `connectProfile`). -/
def laneRefresh : Pending → Bool
  | .connectRefreshAwait => true
  | .refreshAwait => true
  | _ => false

/-- Tasks of the open lane. -/
def laneOpen : Pending → Bool
  | .openAwait1 => true
  | .openAwait2 => true
  | _ => false

/-- Each busy flag equals the number of suspended tasks of its lane; in
particular every lane has at most one operation in flight, and a flag is
set exactly while its lane is occupied. -/
def LaneInv (c : Config) : Prop :=
  c.pending.countP laneConnect = c.state.isConnecting.toNat ∧
  c.pending.countP laneRefresh = c.state.isRefreshing.toNat ∧
  c.pending.countP laneOpen = c.state.isOpening.toNat

theorem countP_pending_cons (p : Pending → Bool) (t : Pending)
    (ts : List Pending) : (t :: ts).countP p = ts.countP p + (p t).toNat := by
  cases h : p t <;> simp [List.countP_cons, h]

theorem laneInv_step {c c' : Config} (h : LaneInv c) (hs : Step c c') :
    LaneInv c' := by
  obtain ⟨h1, h2, h3⟩ := h
  cases hs with
  | connect s ts =>
    cases hC : s.isConnecting <;>
      simp only [LaneInv, startConnect, hC, cond_true, cond_false, optTask,
        resetConnection, List.append_nil, List.countP_append,
        countP_pending_cons, List.countP_nil, laneConnect, laneRefresh,
        laneOpen, Bool.toNat_true, Bool.toNat_false] at h1 h2 h3 ⊢ <;>
      omega
  | refresh s ts =>
    cases hcid : s.connectionId with
    | none =>
      simp only [LaneInv, startRefresh, hcid, optTask, List.append_nil] at h1 h2 h3 ⊢
      exact ⟨h1, h2, h3⟩
    | some id =>
      cases hid : id == "" <;> cases hR : s.isRefreshing <;>
        simp only [LaneInv, startRefresh, hcid, hid, hR, cond_true, cond_false,
          optTask, List.append_nil, List.countP_append, countP_pending_cons,
          List.countP_nil, laneConnect, laneRefresh, laneOpen, Bool.toNat_true,
          Bool.toNat_false] at h1 h2 h3 ⊢ <;>
        omega
  | openT s ts name =>
    cases hcid : s.connectionId with
    | none =>
      simp only [LaneInv, startOpen, hcid, optTask, List.append_nil] at h1 h2 h3 ⊢
      exact ⟨h1, h2, h3⟩
    | some id =>
      cases hid : id == "" <;> cases hO : s.isOpening <;>
        simp only [LaneInv, startOpen, hcid, hid, hO, cond_true, cond_false,
          optTask, List.append_nil, List.countP_append, countP_pending_cons,
          List.countP_nil, laneConnect, laneRefresh, laneOpen, Bool.toNat_true,
          Bool.toNat_false] at h1 h2 h3 ⊢ <;>
        omega
  | reset s ts =>
    simp only [LaneInv, resetConnection] at h1 h2 h3 ⊢
    exact ⟨h1, h2, h3⟩
  | resumeC s r l rr =>
    cases r with
    | err =>
      cases hC : s.isConnecting <;> cases hR : s.isRefreshing <;>
        cases hO : s.isOpening <;>
        simp only [LaneInv, resumeConnect, hC, hR, hO, optTask,
          List.append_nil, List.countP_append, countP_pending_cons,
          List.countP_nil, laneConnect, laneRefresh, laneOpen, Bool.toNat_true,
          Bool.toNat_false] at h1 h2 h3 ⊢ <;>
        omega
    | ok response =>
      cases hid : response.connectionId == "" <;>
        cases hC : s.isConnecting <;> cases hR : s.isRefreshing <;>
        cases hO : s.isOpening <;>
        simp only [LaneInv, resumeConnect, startRefresh, hid, hC, hR, hO,
          cond_true, cond_false, optTask, List.append_nil, List.countP_append,
          countP_pending_cons, List.countP_nil, laneConnect, laneRefresh,
          laneOpen, Bool.toNat_true, Bool.toNat_false] at h1 h2 h3 ⊢ <;>
        omega
  | resumeCR s r l rr =>
    cases r <;> cases hC : s.isConnecting <;> cases hR : s.isRefreshing <;>
      cases hO : s.isOpening <;>
      simp only [LaneInv, resumeConnectRefresh, hC, hR, hO, optTask,
        List.append_nil, List.countP_append, countP_pending_cons,
        List.countP_nil, laneConnect, laneRefresh, laneOpen, Bool.toNat_true,
        Bool.toNat_false] at h1 h2 h3 ⊢ <;>
      omega
  | resumeR s r l rr =>
    cases r <;> cases hC : s.isConnecting <;> cases hR : s.isRefreshing <;>
      cases hO : s.isOpening <;>
      simp only [LaneInv, resumeRefresh, hC, hR, hO, optTask, List.append_nil,
        List.countP_append, countP_pending_cons, List.countP_nil, laneConnect,
        laneRefresh, laneOpen, Bool.toNat_true, Bool.toNat_false] at h1 h2 h3 ⊢ <;>
      omega
  | resumeO1 s r l rr =>
    cases r <;> cases hC : s.isConnecting <;> cases hR : s.isRefreshing <;>
      cases hO : s.isOpening <;>
      simp only [LaneInv, resumeOpen1, hC, hR, hO, optTask, List.append_nil,
        List.countP_append, countP_pending_cons, List.countP_nil, laneConnect,
        laneRefresh, laneOpen, Bool.toNat_true, Bool.toNat_false] at h1 h2 h3 ⊢ <;>
      omega
  | resumeO2 s r l rr =>
    cases r <;> cases hC : s.isConnecting <;> cases hR : s.isRefreshing <;>
      cases hO : s.isOpening <;>
      simp only [LaneInv, resumeOpen2, hC, hR, hO, optTask, List.append_nil,
        List.countP_append, countP_pending_cons, List.countP_nil, laneConnect,
        laneRefresh, laneOpen, Bool.toNat_true, Bool.toNat_false] at h1 h2 h3 ⊢ <;>
      omega

theorem laneInv_reach {c : Config} (h : Reach c) : LaneInv c := by
  induction h with
  | refl => simp [LaneInv, createConnectionState]
  | tail _ hstep ih => exact laneInv_step ih hstep

/-! ## Serial executions: one operation at a time, run to completion.

`serialTrace` strings the synchronous segments of a single operation
together (with the driver outcomes as parameters) and lists every
observable state of that call — the states at its `await` points and its
final state.  This is the behaviour when no other operation interleaves. -/

/-- One registry operation together with the driver outcomes its awaits
will receive. -/
inductive SerialOp where
  | connect (r1 : Outcome ConnectResponseV1) (r2 : Outcome (List TableInfo))
  | refresh (r : Outcome (List TableInfo))
  | openT (name : String) (r1 : Outcome TableHandle) (r2 : Outcome SchemaDefinition)
  | reset

/-- All observable states of one uninterleaved operation, in order (the
states at each `await` suspension and the state at completion). -/
def serialTrace (s : ConnState) : SerialOp → List ConnState
  | .connect r1 r2 =>
    match startConnect s with
    | (s1, none) => [s1]
    | (s1, some _) =>
      match resumeConnect s1 r1 with
      | (s2, none) => [s1, s2]
      | (s2, some _) => [s1, s2, (resumeConnectRefresh s2 r2).1]
  | .refresh r =>
    match startRefresh s with
    | (s1, none) => [s1]
    | (s1, some _) => [s1, (resumeRefresh s1 r).1]
  | .openT name r1 r2 =>
    match startOpen s name with
    | (s1, none) => [s1]
    | (s1, some _) =>
      match resumeOpen1 s1 r1 with
      | (s2, none) => [s1, s2]
      | (s2, some _) => [s1, s2, (resumeOpen2 s2 r2).1]
  | .reset => [resetConnection s]

/-- The state an uninterleaved operation leaves behind. -/
def serialRun (s : ConnState) (op : SerialOp) : ConnState :=
  (serialTrace s op).getLastD s

/-- States reachable by running whole operations back to back, starting
from a fresh connection record. -/
def SerialReach (s : ConnState) : Prop :=
  Relation.ReflTransGen (fun a b => ∃ op, serialRun a op = b)
    createConnectionState s

/-- The schema/activeTableId coupling of spec §3. -/
def SchemaInv (s : ConnState) : Prop :=
  s.schema ≠ none → s.activeTableId ≠ none

theorem getLastD_mem {α : Type} :
    ∀ (l : List α) (d : α), l ≠ [] → l.getLastD d ∈ l
  | [], _, h => absurd rfl h
  | [a], d, _ => by simp
  | a :: b :: t, d, _ => by
    have ih := getLastD_mem (b :: t) a (by simp)
    rw [List.getLastD_cons]
    exact List.mem_cons_of_mem a ih

theorem schemaInv_trace {s : ConnState} (h : SchemaInv s) (op : SerialOp) :
    ∀ t ∈ serialTrace s op, SchemaInv t := by
  cases op with
  | connect r1 r2 =>
    cases hC : s.isConnecting with
    | true =>
      intro t ht
      simp only [serialTrace, startConnect, hC, cond_true,
        List.mem_singleton] at ht
      subst ht
      exact h
    | false =>
      cases r1 with
      | err =>
        intro t ht
        simp only [serialTrace, startConnect, hC, cond_false, resumeConnect,
          resetConnection, List.mem_cons, List.not_mem_nil, or_false] at ht
        rcases ht with rfl | rfl <;> simp [SchemaInv]
      | ok response =>
        cases hid : response.connectionId == "" with
        | true =>
          intro t ht
          simp only [serialTrace, startConnect, hC, cond_false, resumeConnect,
            startRefresh, resetConnection, hid, cond_true, List.mem_cons,
            List.not_mem_nil, or_false] at ht
          rcases ht with rfl | rfl <;> simp [SchemaInv]
        | false =>
          cases hR : s.isRefreshing with
          | true =>
            intro t ht
            simp only [serialTrace, startConnect, hC, cond_false,
              resumeConnect, startRefresh, resetConnection, hid, hR,
              cond_true, cond_false, List.mem_cons, List.not_mem_nil,
              or_false] at ht
            rcases ht with rfl | rfl <;> simp [SchemaInv]
          | false =>
            cases r2 <;>
              (intro t ht
               simp only [serialTrace, startConnect, hC, cond_false,
                 resumeConnect, startRefresh, resetConnection, hid, hR,
                 cond_true, cond_false, resumeConnectRefresh, List.mem_cons,
                 List.not_mem_nil, or_false] at ht
               rcases ht with rfl | rfl | rfl <;> simp [SchemaInv])
  | refresh r =>
    cases hcid : s.connectionId with
    | none =>
      intro t ht
      simp only [serialTrace, startRefresh, hcid, List.mem_singleton] at ht
      subst ht
      exact h
    | some id =>
      cases hid : id == "" with
      | true =>
        intro t ht
        simp only [serialTrace, startRefresh, hcid, hid, cond_true,
          List.mem_singleton] at ht
        subst ht
        exact h
      | false =>
        cases hR : s.isRefreshing with
        | true =>
          intro t ht
          simp only [serialTrace, startRefresh, hcid, hid, hR, cond_true,
            cond_false, List.mem_singleton] at ht
          subst ht
          exact h
        | false =>
          cases r <;>
            (intro t ht
             simp only [serialTrace, startRefresh, hcid, hid, hR, cond_true,
               cond_false, resumeRefresh, List.mem_cons, List.not_mem_nil,
               or_false] at ht
             rcases ht with rfl | rfl <;>
               (simp only [SchemaInv] at h ⊢; exact h))
  | openT name r1 r2 =>
    cases hcid : s.connectionId with
    | none =>
      intro t ht
      simp only [serialTrace, startOpen, hcid, List.mem_singleton] at ht
      subst ht
      exact h
    | some id =>
      cases hid : id == "" with
      | true =>
        intro t ht
        simp only [serialTrace, startOpen, hcid, hid, cond_true,
          List.mem_singleton] at ht
        subst ht
        exact h
      | false =>
        cases hO : s.isOpening with
        | true =>
          intro t ht
          simp only [serialTrace, startOpen, hcid, hid, hO, cond_true,
            cond_false, List.mem_singleton] at ht
          subst ht
          exact h
        | false =>
          cases r1 with
          | err =>
            intro t ht
            simp only [serialTrace, startOpen, hcid, hid, hO, cond_true,
              cond_false, resumeOpen1, List.mem_cons, List.not_mem_nil,
              or_false] at ht
            rcases ht with rfl | rfl <;> simp [SchemaInv]
          | ok handle =>
            cases r2 <;>
              (intro t ht
               simp only [serialTrace, startOpen, hcid, hid, hO, cond_true,
                 cond_false, resumeOpen1, resumeOpen2, List.mem_cons,
                 List.not_mem_nil, or_false] at ht
               rcases ht with rfl | rfl | rfl <;> simp [SchemaInv])
  | reset =>
    intro t ht
    simp only [serialTrace, List.mem_singleton] at ht
    subst ht
    simp [SchemaInv, resetConnection]

theorem schemaInv_serialReach {s : ConnState} (h : SerialReach s) :
    SchemaInv s := by
  induction h with
  | refl => simp [SchemaInv, createConnectionState]
  | tail _ hstep ih =>
    obtain ⟨op, rfl⟩ := hstep
    refine schemaInv_trace ih op _ (getLastD_mem _ _ ?_)
    cases op <;> simp only [serialTrace] <;> (repeat' split) <;> simp

/-! ## Registry level (src/composables/useConnection.ts lines 49-59)

`connectionStates` maps profile ids to `ConnectionState` records; `getState`
lazily inserts a `createConnectionState` record, so an untouched id reads as
that fresh record and the map is modelled as a total function. -/

/-- The registry of per-profile connection records. -/
def Registry := String → ConnState

/-- `connectProfile profileId` up to its first `await`, at registry level:
the synchronous segment runs on `getState(profileId)` and writes back only
that entry.  (When the profile id is absent from the profile list the call
returns before touching any state, so the profile lookup is assumed to
succeed.) -/
def registryConnectStart (reg : Registry) (profileId : String) :
    Registry × Option Pending :=
  let next := startConnect (reg profileId)
  (fun q => if q = profileId then next.1 else reg q, next.2)

/-! ## Concrete executions used to decide reachability questions. -/

/-- A successful driver connect response. -/
def okConnectResponse : ConnectResponseV1 :=
  ⟨"c1", .local, "local", "/tmp/db"⟩

/-- State right after `connectProfile` suspends at `connectV1`. -/
def connectingState : ConnState :=
  { createConnectionState with isConnecting := true }

/-- State while `connectProfile`'s chained `refreshTables` awaits
`listTablesV1`: both `isConnecting` and `isRefreshing` are set. -/
def connectRefreshState : ConnState :=
  { connectionId := some "c1"
    tables := []
    activeTableName := none
    activeTableId := none
    schema := none
    isConnecting := true
    isRefreshing := true
    isOpening := false }

/-- Quiescent state after a completed successful connect. -/
def connectedState : ConnState :=
  { connectRefreshState with
    tables := [⟨"items"⟩]
    isConnecting := false
    isRefreshing := false }

/-- State while `openTable "items"` awaits `openTableV1`. -/
def openingState : ConnState :=
  { connectedState with
    isOpening := true
    activeTableName := some "items"
    activeTableId := none
    schema := none }

/-- State while `openTable` awaits `getSchemaV1`, the table id set. -/
def openedAwaitSchemaState : ConnState :=
  { openingState with activeTableId := some "t1" }

/-- A one-field schema payload. -/
def demoSchema : SchemaDefinition :=
  ⟨[⟨"id", "int64", false, none⟩]⟩

theorem reach_connectRefresh :
    Reach ⟨connectRefreshState, [Pending.connectRefreshAwait]⟩ := by
  have h1 : Step ⟨createConnectionState, []⟩
      ⟨connectingState, [Pending.connectAwait]⟩ := by
    have h := Step.connect createConnectionState []
    simpa [startConnect, createConnectionState, resetConnection,
      connectingState, optTask] using h
  have h2 : Step ⟨connectingState, [Pending.connectAwait]⟩
      ⟨connectRefreshState, [Pending.connectRefreshAwait]⟩ := by
    have h := Step.resumeC connectingState (.ok okConnectResponse) [] []
    simpa [resumeConnect, startRefresh, connectingState, createConnectionState,
      connectRefreshState, okConnectResponse, optTask] using h
  exact .tail (.tail .refl h1) h2

theorem reach_connected : Reach ⟨connectedState, []⟩ := by
  have h3 : Step ⟨connectRefreshState, [Pending.connectRefreshAwait]⟩
      ⟨connectedState, []⟩ := by
    have h := Step.resumeCR connectRefreshState
      (.ok [(⟨"items"⟩ : TableInfo)]) [] []
    simpa [resumeConnectRefresh, connectRefreshState, connectedState,
      optTask] using h
  exact .tail reach_connectRefresh h3

theorem reach_opening : Reach ⟨openingState, [Pending.openAwait1]⟩ := by
  have h4 : Step ⟨connectedState, []⟩ ⟨openingState, [Pending.openAwait1]⟩ := by
    have h := Step.openT connectedState [] "items"
    simpa [startOpen, connectedState, connectRefreshState, openingState,
      optTask] using h
  exact .tail reach_connected h4

theorem reach_openedAwaitSchema :
    Reach ⟨openedAwaitSchemaState, [Pending.openAwait2]⟩ := by
  have h5 : Step ⟨openingState, [Pending.openAwait1]⟩
      ⟨openedAwaitSchemaState, [Pending.openAwait2]⟩ := by
    have h := Step.resumeO1 openingState
      (.ok (⟨"t1", "items"⟩ : TableHandle)) [] []
    simpa [resumeOpen1, openingState, connectedState, connectRefreshState,
      openedAwaitSchemaState, optTask] using h
  exact .tail reach_opening h5

/-! ## Disconnect lane (modelled from the spec). -/

/-- `DisconnectResponseV1` from the IPC v1 schema (src/unnamed/part_004
lines 67-70). -/
structure DisconnectResponseV1 where
  connectionId : String
  releasedTables : Nat
deriving DecidableEq, Repr

/-- Modelled from the spec: the registry's disconnect lane (spec §4.2
"Disconnect lane: requires a handle; idle → disconnecting → idle. On
success: full reset of the state (handle, tables, active table, schema)
and report count of released table handles").  The snapshot carries only
this lane's collaborators — the `disconnect_v1` IPC wrapper
(src/unnamed/part_016 lines 95-99), the response type above, and the
Sidebar callers reading an `isDisconnecting` flag — while the
`useConnection` generation implementing the lane is absent, so the lane
itself is modelled from the spec's words.  `openTables` is the set of
table handles the backend holds for this connection; the driver releases
them all and reports their count. -/
def disconnectLane (s : ConnState) (isDisconnecting : Bool)
    (openTables : List String) :
    Option (ConnState × DisconnectResponseV1) :=
  match s.connectionId with
  | none => none
  | some cid =>
    bif isDisconnecting then none
    else some (resetConnection s, ⟨cid, openTables.length⟩)

/-- `q`'s auth descriptor is a `secret_ref` whose trimmed reference is
`r`. -/
def referencesCred (q : StoredProfile) (r : String) : Prop :=
  ∃ provider rr, q.auth = some (.secretRef provider rr) ∧ jsTrim rr = r

theorem contains_iff_mem_str (l : List String) (a : String) :
    l.contains a = true ↔ a ∈ l := by
  simp [List.contains_iff_exists_mem_beq, beq_iff_eq]

theorem mem_collectCredentialReferences (ps : List StoredProfile)
    (r : String) :
    r ∈ collectCredentialReferences ps ↔
      r ≠ "" ∧ ∃ q ∈ ps, referencesCred q r := by
  simp only [collectCredentialReferences, List.mem_filterMap, referencesCred]
  constructor
  · rintro ⟨q, hq, hfq⟩
    rcases hauth : q.auth with _ | a
    · rw [hauth] at hfq; simp at hfq
    · cases a with
      | noAuth => rw [hauth] at hfq; simp at hfq
      | inline pr prm => rw [hauth] at hfq; simp at hfq
      | secretRef pr rr =>
        rw [hauth] at hfq
        by_cases ht : jsTrim rr = ""
        · simp [ht] at hfq
        · simp only [ht, if_false] at hfq
          have hfq' : jsTrim rr = r := by simpa using hfq
          exact ⟨hfq' ▸ ht, q, hq, pr, rr, hauth, hfq'⟩
  · rintro ⟨hr, q, hq, pr, rr, hauth, htr⟩
    refine ⟨q, hq, ?_⟩
    rw [hauth]
    simp [htr, hr]

/-! ## The claims. -/

/-- C1, as stated, is false: the claim asserts that at every observable
instant at most one of a connection's busy flags is true, but a successful
`connectProfile` chains into `refreshTables` before its `finally` clears
`isConnecting` (useConnection.ts line 113 runs inside the line 105-119
`try`), so at the chained refresh's `await listTablesV1` suspension —
reachable in two steps from a fresh connection — both `isConnecting` and
`isRefreshing` are true. -/
theorem claimC1_counterexample :
    Reach ⟨connectRefreshState, [Pending.connectRefreshAwait]⟩ ∧
    connectRefreshState.isConnecting = true ∧
    connectRefreshState.isRefreshing = true :=
  ⟨reach_connectRefresh, rfl, rfl⟩

/-- C1 (amended): busy-flag exclusion holds per lane, not across lanes:
in every reachable configuration each lane (connect, refresh, open) has at
most one operation in flight, and a lane's busy flag is true exactly while
that lane is occupied; flags of different lanes may overlap (the chained
refresh runs with `isConnecting` still true).  The snapshot's
`ConnectionState` has no disconnecting flag. -/
theorem claimC1_amended (c : Config) (h : Reach c) :
    c.pending.countP laneConnect ≤ 1 ∧
    c.pending.countP laneRefresh ≤ 1 ∧
    c.pending.countP laneOpen ≤ 1 ∧ LaneInv c := by
  obtain ⟨h1, h2, h3⟩ := laneInv_reach h
  refine ⟨?_, ?_, ?_, h1, h2, h3⟩
  · rw [h1]; cases c.state.isConnecting <;> simp
  · rw [h2]; cases c.state.isRefreshing <;> simp
  · rw [h3]; cases c.state.isOpening <;> simp

/-- Witness for C1 (amended) at the reachable configuration suspended in
the chained refresh. -/
theorem claimC1_amended_witness :
    Reach ⟨connectRefreshState, [Pending.connectRefreshAwait]⟩ ∧
    LaneInv ⟨connectRefreshState, [Pending.connectRefreshAwait]⟩ :=
  ⟨reach_connectRefresh,
   (claimC1_amended _ reach_connectRefresh).2.2.2⟩

/-- C2: `unwrapEnvelope` of a success envelope returns exactly its payload,
and of an error envelope fails with exactly the envelope's message. -/
theorem claimC2_envelope_roundtrip (T : Type) (t : T) (code : ErrorCode)
    (message : String) :
    unwrapEnvelope (⟨"v1", true, some t, none⟩ : ResultEnvelope T) = .ok t ∧
    unwrapEnvelope (⟨"v1", false, none, some ⟨code, message, none⟩⟩ :
      ResultEnvelope T) = .error message :=
  ⟨rfl, rfl⟩

/-- A stored profile whose auth is `secret_ref{provider: "aws",
reference: "cred_1"}`. -/
def secretProfile : StoredProfile :=
  { id := "p1", name := "prod", uri := "db://host", storageOptions := [],
    options := none, auth := some (.secretRef "aws" "cred_1") }

/-- C3, as stated, is false: `connectProfile` builds its connect request as
`toConnectProfile(profile)` with `auth ??= {type:"none"}`
(useConnection.ts lines 108-109) and never calls `resolveAuthDescriptor`,
so for a `secret_ref` profile the request handed to the driver carries the
unresolved `secret_ref` descriptor. -/
theorem claimC3_counterexample :
    (buildConnectRequest secretProfile).auth =
      some (AuthDescriptor.secretRef "aws" "cred_1") := by decide

/-- C3 (amended): the vault substitution exists as the helper
`resolveAuthDescriptor` — it resolves a `secret_ref` to an `inline`
descriptor with the vault credential's params (and fails when the
reference is missing, never passing a reference through) — but
`connectProfile` does not invoke it: the request it builds carries the
stored auth descriptor unchanged, only defaulting an absent descriptor to
`none`. -/
theorem claimC3_amended (getCredential : String → Option CredentialRecord)
    (provider reference : String) (credential : CredentialRecord)
    (h : getCredential reference = some credential) :
    resolveAuthDescriptor getCredential
        (some (.secretRef provider reference)) =
      .ok (.inline provider credential.params) ∧
    ∀ p : StoredProfile,
      (buildConnectRequest p).auth = some (p.auth.getD .noAuth) := by
  refine ⟨?_, fun p => rfl⟩
  simp [resolveAuthDescriptor, h]

/-- A one-credential vault for the C3 witness. -/
def demoVault : String → Option CredentialRecord := fun reference =>
  bif reference == "cred_1" then
    some ⟨"cred_1", "aws", none, "2026-01-01", [("key", "K")]⟩
  else none

/-- Witness for C3 (amended) on a concrete vault. -/
theorem claimC3_amended_witness :
    demoVault "cred_1" =
      some ⟨"cred_1", "aws", none, "2026-01-01", [("key", "K")]⟩ ∧
    resolveAuthDescriptor demoVault
        (some (.secretRef "aws" "cred_1")) =
      .ok (.inline "aws" [("key", "K")]) :=
  ⟨rfl, (claimC3_amended demoVault "aws" "cred_1" _ rfl).1⟩

/-- The state left behind when a schema fetch lands after the connection
was reset: schema populated, `activeTableId` null. -/
def staleSchemaState : ConnState :=
  { connectionId := none
    tables := []
    activeTableName := none
    activeTableId := none
    schema := some demoSchema
    isConnecting := false
    isRefreshing := false
    isOpening := false }

/-- C4, as stated, is false: the claim quantifies over interleavings at
database-client await points, and a `resetConnection` issued while
`openTable` awaits `getSchemaV1` clears `activeTableId`; when the schema
fetch then lands, useConnection.ts line 161 sets `schema` with
`activeTableId` still null.  The violating state is reachable. -/
theorem claimC4_counterexample :
    Reach ⟨staleSchemaState, []⟩ ∧
    staleSchemaState.schema = some demoSchema ∧
    staleSchemaState.activeTableId = none := by
  refine ⟨?_, rfl, rfl⟩
  have h6 : Step ⟨openedAwaitSchemaState, [Pending.openAwait2]⟩
      ⟨resetConnection openedAwaitSchemaState, [Pending.openAwait2]⟩ :=
    Step.reset _ _
  have h7 : Step ⟨resetConnection openedAwaitSchemaState, [Pending.openAwait2]⟩
      ⟨staleSchemaState, []⟩ := by
    have h := Step.resumeO2 (resetConnection openedAwaitSchemaState)
      (.ok demoSchema) [] []
    simpa [resumeOpen2, resetConnection, openedAwaitSchemaState, openingState,
      connectedState, connectRefreshState, staleSchemaState, optTask] using h
  exact .tail (.tail reach_openedAwaitSchema h6) h7

/-- C4 (amended): the schema/activeTableId coupling holds for every state
reachable without interleaving — over sequences of whole operations run to
completion, and at every await point inside each single operation — but an
interleaved reset/connect between `openTable`'s two awaits violates it. -/
theorem claimC4_amended (s : ConnState) (h : SerialReach s) :
    SchemaInv s ∧ ∀ op : SerialOp, ∀ t ∈ serialTrace s op, SchemaInv t :=
  ⟨schemaInv_serialReach h,
   fun op => schemaInv_trace (schemaInv_serialReach h) op⟩

/-- Witness for C4 (amended) at the initial state. -/
theorem claimC4_amended_witness :
    SerialReach createConnectionState ∧ SchemaInv createConnectionState :=
  ⟨.refl, (claimC4_amended _ .refl).1⟩

/-- State while a second `connectProfile` awaits `connectV1` with an
`openTable` still in flight (its reset already cleared the fields). -/
def connectingWhileOpenState : ConnState :=
  { connectionId := none
    tables := []
    activeTableName := none
    activeTableId := none
    schema := none
    isConnecting := true
    isRefreshing := false
    isOpening := true }

/-- The state right after that connect attempt fails. -/
def failedConnectState : ConnState :=
  { connectingWhileOpenState with isConnecting := false }

/-- C5, as stated, is false: `connectProfile` only guards on `isConnecting`
(useConnection.ts lines 101-103), so it can start while an `openTable` is
suspended; when the driver connect then fails, the completing `catch`/
`finally` leave `connectionId = null` and `isConnecting = false`, but
`isOpening` is still true — not all busy flags are false after the failed
connect completes.  The second conjunct is exactly that completing step. -/
theorem claimC5_counterexample :
    Reach ⟨connectingWhileOpenState,
      [Pending.openAwait1, Pending.connectAwait]⟩ ∧
    Step ⟨connectingWhileOpenState,
        [Pending.openAwait1, Pending.connectAwait]⟩
      ⟨failedConnectState, [Pending.openAwait1]⟩ ∧
    failedConnectState.connectionId = none ∧
    failedConnectState.isConnecting = false ∧
    failedConnectState.isOpening = true := by
  refine ⟨?_, ?_, rfl, rfl, rfl⟩
  · have h8 : Step ⟨openingState, [Pending.openAwait1]⟩
        ⟨connectingWhileOpenState,
          [Pending.openAwait1, Pending.connectAwait]⟩ := by
      have h := Step.connect openingState [Pending.openAwait1]
      simpa [startConnect, openingState, connectedState, connectRefreshState,
        resetConnection, connectingWhileOpenState, optTask] using h
    exact .tail reach_opening h8
  · have h := Step.resumeC connectingWhileOpenState .err [Pending.openAwait1] []
    simpa [resumeConnect, connectingWhileOpenState, failedConnectState,
      optTask] using h

/-- C5 (amended): after a `connectProfile` call that starts from a
quiescent connection (no operation of any lane in flight, which is how the
spec's sequential scenario runs) and whose driver connect fails, the
connection handle is `None` and all busy flags of the implementation's
`ConnectionState` are false; a concurrent in-flight lane keeps its own
flag (see the counterexample). -/
theorem claimC5_amended (s : ConnState) (h : Reach ⟨s, []⟩) :
    (startConnect s).2 = some Pending.connectAwait ∧
    (resumeConnect (startConnect s).1 .err).1.connectionId = none ∧
    (resumeConnect (startConnect s).1 .err).1.isConnecting = false ∧
    (resumeConnect (startConnect s).1 .err).1.isRefreshing = false ∧
    (resumeConnect (startConnect s).1 .err).1.isOpening = false := by
  obtain ⟨h1, h2, h3⟩ := laneInv_reach h
  simp only [List.countP_nil] at h1 h2 h3
  have hC : s.isConnecting = false := by
    cases hc : s.isConnecting <;> simp [hc] at h1 ⊢
  have hR : s.isRefreshing = false := by
    cases hc : s.isRefreshing <;> simp [hc] at h2 ⊢
  have hO : s.isOpening = false := by
    cases hc : s.isOpening <;> simp [hc] at h3 ⊢
  simp [startConnect, resumeConnect, resetConnection, hC, hR, hO]

/-- Witness for C5 (amended) at the quiescent connected state. -/
theorem claimC5_amended_witness :
    Reach ⟨connectedState, []⟩ ∧
    (resumeConnect (startConnect connectedState).1 .err).1.connectionId =
      none :=
  ⟨reach_connected, (claimC5_amended _ reach_connected).2.1⟩

/-- C6 (modelled from the spec, the disconnect lane being absent from the
snapshot): for a connection with a handle and one open table, disconnect
reports `releasedTables = 1` and fully resets the state (handle, tables,
active table, schema). -/
theorem claimC6_disconnect (s : ConnState) (cid table : String)
    (h : s.connectionId = some cid) :
    disconnectLane s false [table] =
      some (resetConnection s, ⟨cid, 1⟩) ∧
    (resetConnection s).connectionId = none ∧
    (resetConnection s).tables = [] ∧
    (resetConnection s).activeTableName = none ∧
    (resetConnection s).schema = none := by
  refine ⟨?_, rfl, rfl, rfl, rfl⟩
  simp [disconnectLane, h]

/-- Witness for C6 at the connected state with one open table. -/
theorem claimC6_disconnect_witness :
    connectedState.connectionId = some "c1" ∧
    disconnectLane connectedState false ["items"] =
      some (resetConnection connectedState, ⟨"c1", 1⟩) :=
  ⟨rfl, (claimC6_disconnect connectedState "c1" "items" rfl).1⟩

/-- C7: deleting profile `p` garbage-collects vault credentials: after
`deleteProfileStep`, a reference `r` held by `p` is removed from the vault
index when no remaining profile references it, and retained when another
profile (different id) still does. -/
theorem claimC7_vault_gc (profiles : List StoredProfile)
    (index : List CredentialSummary) (p : StoredProfile) (r : String)
    (hp : p ∈ profiles) (_hauth : referencesCred p r) (hr : r ≠ "") :
    ((¬ ∃ q ∈ profiles, q.id ≠ p.id ∧ referencesCred q r) →
      (∀ c ∈ (deleteProfileStep profiles p.id index).2.1,
        c.reference ≠ r) ∧
      (∀ c ∈ index, c.reference = r →
        r ∈ (deleteProfileStep profiles p.id index).2.2)) ∧
    ((∃ q ∈ profiles, q.id ≠ p.id ∧ referencesCred q r) →
      ∀ c ∈ index, c.reference = r →
        c ∈ (deleteProfileStep profiles p.id index).2.1) := by
  obtain ⟨q0, hq0⟩ : ∃ q0, profiles.find? (fun q => q.id == p.id) = some q0 := by
    cases hf : profiles.find? (fun q => q.id == p.id) with
    | none =>
      have := List.find?_eq_none.mp hf p hp
      simp at this
    | some q0 => exact ⟨q0, rfl⟩
  have hused : ∀ x : String,
      x ∈ collectCredentialReferences
        (profiles.filter (fun q => !(q.id == p.id))) ↔
      x ≠ "" ∧ ∃ q ∈ profiles, q.id ≠ p.id ∧ referencesCred q x := by
    intro x
    rw [mem_collectCredentialReferences]
    simp [List.mem_filter, and_assoc]
  constructor
  · intro hno
    have hcon : (collectCredentialReferences
        (profiles.filter (fun q => !(q.id == p.id)))).contains r = false := by
      cases hc : (collectCredentialReferences
          (profiles.filter (fun q => !(q.id == p.id)))).contains r with
      | false => rfl
      | true =>
        exact absurd ((hused r).mp ((contains_iff_mem_str _ _).mp hc)).2 hno
    constructor
    · intro c hc hcr
      simp only [deleteProfileStep, hq0, cleanupUnusedCredentials,
        List.mem_filter] at hc
      rw [hcr, hcon] at hc
      simp at hc
    · intro c hc hcr
      simp only [deleteProfileStep, hq0, cleanupUnusedCredentials,
        List.mem_map]
      refine ⟨c, ?_, hcr⟩
      simp only [List.mem_filter]
      rw [hcr, hcon]
      exact ⟨hc, rfl⟩
  · intro hyes c hc hcr
    have hcon : (collectCredentialReferences
        (profiles.filter (fun q => !(q.id == p.id)))).contains r = true := by
      rw [contains_iff_mem_str, hused]
      exact ⟨hr, hyes⟩
    simp only [deleteProfileStep, hq0, cleanupUnusedCredentials,
      List.mem_filter]
    rw [hcr, hcon]
    exact ⟨hc, rfl⟩

/-- Witness for C7: deleting `p1` (the only holder of `cred_1`) removes
`cred_1` from the vault index. -/
theorem claimC7_vault_gc_witness :
    secretProfile ∈ [secretProfile] ∧
    referencesCred secretProfile "cred_1" ∧
    ("cred_1" : String) ≠ "" ∧
    (∀ c ∈ (deleteProfileStep [secretProfile] secretProfile.id
        [⟨"cred_1", "aws", none, "2026-01-01"⟩]).2.1,
      c.reference ≠ "cred_1") := by
  refine ⟨List.mem_singleton.mpr rfl, ⟨"aws", "cred_1", rfl, by decide⟩,
    by decide, ?_⟩
  refine ((claimC7_vault_gc [secretProfile] _ secretProfile "cred_1"
    (List.mem_singleton.mpr rfl) ⟨"aws", "cred_1", rfl, by decide⟩
    (by decide)).1 ?_).1
  rintro ⟨q, hq, hid, -⟩
  rw [List.mem_singleton] at hq
  exact hid (by rw [hq])

/-- C8: issuing `connectProfile(p)` while `p`'s `isConnecting` flag is true
leaves the entire registry unchanged and spawns no operation — the
duplicate request is dropped, and no other profile's state is touched. -/
theorem claimC8_noop_under_busy (reg : Registry) (profileId : String)
    (h : (reg profileId).isConnecting = true) :
    (registryConnectStart reg profileId).1 = reg ∧
    (registryConnectStart reg profileId).2 = none := by
  constructor
  · funext q
    by_cases hq : q = profileId
    · subst hq
      simp [registryConnectStart, startConnect, h]
    · simp [registryConnectStart, hq]
  · simp [registryConnectStart, startConnect, h]

/-- A registry whose every profile is mid-connect. -/
def busyRegistry : Registry := fun _ => connectingState

/-- Witness for C8 on a concrete busy registry. -/
theorem claimC8_noop_under_busy_witness :
    (busyRegistry "p1").isConnecting = true ∧
    (registryConnectStart busyRegistry "p1").1 = busyRegistry :=
  ⟨rfl, (claimC8_noop_under_busy busyRegistry "p1" rfl).1⟩

/-- C9, as stated, is false: the claim's enumeration sends every URI with
a scheme outside {file, s3, gs, az, db} to `unknown`, but the source also
maps `azure://` to `azure` (and `s3+ddb://` to `s3`):
`getConnectionKind "azure://demo"` is `azure` while the claimed
classification yields `unknown`. -/
theorem claimC9_counterexample :
    getConnectionKind "azure://demo" = .azure ∧
    claimC9Kind "azure://demo" = .unknown := by
  refine ⟨by decide, by decide⟩

/-- C9 (amended): the backend kind is inferred from the trimmed,
lowercased URI scheme by the prefix table `file:// → local`, `s3:// → s3`,
`s3+ddb:// → s3`, `gs:// → gcs`, `az:// → azure`, `azure:// → azure`,
`db:// → remote`, with any other URI containing `"://"` classified
`unknown` and scheme-less paths `local`; in particular `"/tmp/db"` is
`local`. -/
theorem claimC9_amended :
    (∀ uri, getConnectionKind uri = claimC9KindAmended uri) ∧
    getConnectionKind "/tmp/db" = .local := by
  refine ⟨?_, by decide⟩
  intro uri
  set n := jsToLower (jsTrim uri) with hn
  by_cases h1 : jsStartsWith n "file://"
  · simp [getConnectionKind, claimC9KindAmended, kindEntries, classifyByTable,
      ← hn, h1]
  · by_cases h2 : jsStartsWith n "s3://"
    · simp [getConnectionKind, claimC9KindAmended, kindEntries,
        classifyByTable, ← hn, h1, h2]
    · by_cases h3 : jsStartsWith n "s3+ddb://"
      · simp [getConnectionKind, claimC9KindAmended, kindEntries,
          classifyByTable, ← hn, h1, h2, h3]
      · by_cases h4 : jsStartsWith n "gs://"
        · simp [getConnectionKind, claimC9KindAmended, kindEntries,
            classifyByTable, ← hn, h1, h2, h3, h4]
        · by_cases h5 : jsStartsWith n "az://"
          · simp [getConnectionKind, claimC9KindAmended, kindEntries,
              classifyByTable, ← hn, h1, h2, h3, h4, h5]
          · by_cases h6 : jsStartsWith n "azure://"
            · simp [getConnectionKind, claimC9KindAmended, kindEntries,
                classifyByTable, ← hn, h1, h2, h3, h4, h5, h6]
            · by_cases h7 : jsStartsWith n "db://"
              · simp [getConnectionKind, claimC9KindAmended, kindEntries,
                  classifyByTable, ← hn, h1, h2, h3, h4, h5, h6, h7]
              · by_cases h8 : jsIncludes n "://"
                · simp [getConnectionKind, claimC9KindAmended, kindEntries,
                    classifyByTable, ← hn, h1, h2, h3, h4, h5, h6, h7, h8]
                · simp [getConnectionKind, claimC9KindAmended, kindEntries,
                    classifyByTable, ← hn, h1, h2, h3, h4, h5, h6, h7, h8]

/-- A stored profile whose URI is a bare `*.lance` table-directory name. -/
def lanceProfile : StoredProfile :=
  { id := "p2", name := "tbl", uri := "items.lance", storageOptions := [],
    options := none, auth := none }

/-- C10, as stated, is false: for the input `"items.lance"` — which
contains no `"://"` and whose trimmed, quote-stripped form ends in
`.lance` — `parentDirectory` finds no separator and returns the path
itself, so `normalizeConnectUri` returns the very `*.lance` path, and
`toConnectProfile` hands that path to the driver as the database URI. -/
theorem claimC10_counterexample :
    normalizeConnectUri "items.lance" = "items.lance" ∧
    jsIncludes (jsToLower "items.lance") "://" = false ∧
    endsWithLanceTableDir
      (jsTrim (stripFileScheme (stripWrappingQuotes "items.lance"))) = true ∧
    (toConnectProfile lanceProfile).uri = "items.lance" :=
  ⟨by decide, by decide, by decide, by decide⟩

/-- C10 (amended): for an input with no `"://"` in its processed form and
ending case-insensitively in `.lance` (ignoring trailing separators),
`normalizeConnectUri` returns `parentDirectory` of the processed path —
the parent directory when the path has a separator at positive index, and
the path itself otherwise; the normalization is applied both when a
profile is saved (`addProfile`/`updateProfile`) and again by
`toConnectProfile` when the stored profile becomes a connect request. -/
theorem claimC10_amended (raw : String)
    (h1 : jsIncludes (jsToLower (jsTrim (stripFileScheme
      (stripWrappingQuotes raw)))) "://" = false)
    (h2 : endsWithLanceTableDir (jsTrim (stripFileScheme
      (stripWrappingQuotes raw))) = true) :
    normalizeConnectUri raw =
      parentDirectory (jsTrim (stripFileScheme (stripWrappingQuotes raw))) ∧
    (∀ p : StoredProfile,
      (toConnectProfile p).uri = normalizeConnectUri p.uri) ∧
    (∀ formUri u, savedProfileUri formUri = some u →
      u = normalizeConnectUri (jsTrim formUri)) := by
  refine ⟨?_, ?_, ?_⟩
  · simp [normalizeConnectUri, h1, h2]
  · intro p
    simp [toConnectProfile]
  · intro formUri u hu
    simp only [savedProfileUri] at hu
    split at hu
    · exact absurd hu (by simp)
    · split at hu
      · exact absurd hu (by simp)
      · exact (Option.some_inj.mp hu).symm

/-- Witness for C10 (amended) on `"/data/items.lance"`. -/
theorem claimC10_amended_witness :
    jsIncludes (jsToLower (jsTrim (stripFileScheme
      (stripWrappingQuotes "/data/items.lance")))) "://" = false ∧
    endsWithLanceTableDir (jsTrim (stripFileScheme
      (stripWrappingQuotes "/data/items.lance"))) = true ∧
    normalizeConnectUri "/data/items.lance" =
      parentDirectory (jsTrim (stripFileScheme
        (stripWrappingQuotes "/data/items.lance"))) :=
  ⟨by decide, by decide,
   (claimC10_amended "/data/items.lance" (by decide) (by decide)).1⟩

end LancedbViewer
